import Mathlib

/-!
Verification of the Firestore-to-Redis cache pipeline (`index.js`).

The development shallowly embeds the pipeline: JavaScript objects become a
`Json` inductive, Firestore typed value wrappers become `FSValue`, the decoded
document becomes a list of named `DocValue`s, and every outbound network call
is an oracle field of an `Ext` record (`none` / `Except.error` models the call
throwing; this is sound because the pipeline only branches on success vs
failure and on the returned payload).  Effects are collected in a `Trace`:
which credential lookups were issued, how many enrichment calls ran, and the
exact list of cache writes (key, TTL, stored value).
-/

namespace FirestoreRedisCache

/-- JSON-like JavaScript values.  Numbers are modelled as integers: every
number the pipeline itself constructs (timestamps, TTL offsets) is integral,
and payload numbers are only carried around, never computed with. -/
inductive Json where
  | null
  | bool (b : Bool)
  | num (n : Int)
  | str (s : String)
  | arr (xs : List Json)
  | obj (fields : List (String × Json))

/-- Property access `o[k]` on a JavaScript value: `none` models `undefined`
(absent key or non-object receiver). -/
def jsGet (o : Json) (k : String) : Option Json :=
  match o with
  | .obj fs => (fs.find? (fun p => p.1 == k)).map (fun p => p.2)
  | _ => none

/-- JavaScript truthiness of a value. -/
def jsTruthy : Json → Bool
  | .null => false
  | .bool b => b
  | .num n => n != 0
  | .str s => s != ""
  | .arr _ => true
  | .obj _ => true

/-- JavaScript truthiness of a possibly-`undefined` value. -/
def jsTruthyOpt : Option Json → Bool
  | none => false
  | some v => jsTruthy v

/-- String conversion used by template interpolation.  Array-to-string join is
approximated by `""`; every interpolated value in the modelled pipeline is a
plain string. -/
def jsDisplay : Option Json → String
  | none => "undefined"
  | some .null => "null"
  | some (.bool b) => cond b "true" "false"
  | some (.num n) => toString n
  | some (.str s) => s
  | some (.arr _) => ""
  | some (.obj _) => "[object Object]"

/-- Firestore typed value wrappers as they appear in the event payload
(`value.fields`).  `mapValue`/`arrayValue` carry their inner `fields`/`values`
key as an `Option`, mirroring that the wrapper object may lack it.  The
`doubleValue` payload is carried opaquely as an integer: the decoder copies it
verbatim and never computes with it. -/
inductive FSValue where
  | stringValue (s : String)
  | integerValue (s : String)
  | doubleValue (d : Int)
  | booleanValue (b : Bool)
  | timestampValue (t : String)
  | mapValue (fields : Option (List (String × FSValue)))
  | arrayValue (values : Option (List FSValue))

/-- Decoded document field values, as the pipeline's untyped `documentData`
object holds them.  `date` keeps the source timestamp string (`new Date(t)`),
`nan` is the `NaN` result of a failed `parseInt`, and `raw` is an
un-unwrapped Firestore wrapper passed through by the array branch. -/
inductive DocValue where
  | str (s : String)
  | int (n : Int)
  | nan
  | double (d : Int)
  | bool (b : Bool)
  | date (t : String)
  | map (fields : List (String × DocValue))
  | list (xs : List DocValue)
  | raw (v : FSValue)

/-- Longest leading run of decimal digits. -/
def leadDigits : List Char → List Char
  | [] => []
  | c :: cs => if c.isDigit then c :: leadDigits cs else []

/-- Numeric value of a digit list. -/
def digitsToNat (ds : List Char) : Nat :=
  ds.foldl (fun a c => a * 10 + (c.toNat - 48)) 0

/-- JavaScript `parseInt` on the decimal strings Firestore transmits for
`integerValue` (whitespace/hex handling omitted: the wire format is an
optional sign followed by digits).  An unparsable string gives `NaN`. -/
def jsParseInt (s : String) : DocValue :=
  match s.data with
  | '-' :: rest =>
    let ds := leadDigits rest
    if ds.isEmpty then .nan else .int (-(digitsToNat ds : Int))
  | cs =>
    let ds := leadDigits cs
    if ds.isEmpty then .nan else .int (digitsToNat ds)

/-- One nested-map entry of the decoder (index.js lines 150-154): only
`stringValue` members are kept. -/
def convertNestedEntry (p : String × FSValue) : Option (String × DocValue) :=
  match p.2 with
  | .stringValue s => some (p.1, .str s)
  | _ => none

/-- One array element of the decoder (index.js lines 157-161): strings and
integers are unwrapped, anything else is returned as the raw wrapper. -/
def convertArrayElem (v : FSValue) : DocValue :=
  match v with
  | .stringValue s => .str s
  | .integerValue s => jsParseInt s
  | _ => .raw v

/-- Per-field value conversion of the decoder (index.js lines 136-163).
`none` means no branch of the if/else chain matched, so the key is skipped. -/
def convertValue (v : FSValue) : Option DocValue :=
  match v with
  | .stringValue s => some (.str s)
  | .integerValue s => some (jsParseInt s)
  | .doubleValue d => some (.double d)
  | .booleanValue b => some (.bool b)
  | .timestampValue t => some (.date t)
  | .mapValue (some fs) => some (.map (fs.filterMap convertNestedEntry))
  | .mapValue none => none
  | .arrayValue (some vs) => some (.list (vs.map convertArrayElem))
  | .arrayValue none => none

/-- Conversion of the whole `value.fields` map into `documentData`. -/
def convertFields (fs : List (String × FSValue)) : List (String × DocValue) :=
  fs.filterMap (fun p => (convertValue p.2).map (fun v => (p.1, v)))

mutual

/-- Modelled from the spec: the fully recursive unwrapping that section 4.1
describes ("unwrap recursively into DocumentFields", preserving nested maps
and lists with all their typed member values at every depth).  Used only to
compare the decoder in the source against the spec's words. -/
def specUnwrap : FSValue → DocValue
  | .stringValue s => .str s
  | .integerValue s => jsParseInt s
  | .doubleValue d => .double d
  | .booleanValue b => .bool b
  | .timestampValue t => .date t
  | .mapValue none => .map []
  | .mapValue (some fs) => .map (specUnwrapFields fs)
  | .arrayValue none => .list []
  | .arrayValue (some vs) => .list (specUnwrapList vs)

/-- Modelled from the spec: recursive unwrapping of a field map. -/
def specUnwrapFields : List (String × FSValue) → List (String × DocValue)
  | [] => []
  | (k, v) :: rest => (k, specUnwrap v) :: specUnwrapFields rest

/-- Modelled from the spec: recursive unwrapping of an array. -/
def specUnwrapList : List FSValue → List DocValue
  | [] => []
  | v :: rest => specUnwrap v :: specUnwrapList rest

end

mutual

/-- JSON.stringify view of a raw Firestore wrapper (the shape the wrapper
object itself serializes to). -/
def fsToJson : FSValue → Json
  | .stringValue s => .obj [("stringValue", .str s)]
  | .integerValue s => .obj [("integerValue", .str s)]
  | .doubleValue d => .obj [("doubleValue", .num d)]
  | .booleanValue b => .obj [("booleanValue", .bool b)]
  | .timestampValue t => .obj [("timestampValue", .str t)]
  | .mapValue none => .obj [("mapValue", .obj [])]
  | .mapValue (some fs) => .obj [("mapValue", .obj [("fields", .obj (fsFieldsToJson fs))])]
  | .arrayValue none => .obj [("arrayValue", .obj [])]
  | .arrayValue (some vs) => .obj [("arrayValue", .obj [("values", .arr (fsListToJson vs))])]

/-- JSON.stringify view of a wrapper field map. -/
def fsFieldsToJson : List (String × FSValue) → List (String × Json)
  | [] => []
  | (k, v) :: rest => (k, fsToJson v) :: fsFieldsToJson rest

/-- JSON.stringify view of a wrapper list. -/
def fsListToJson : List FSValue → List Json
  | [] => []
  | v :: rest => fsToJson v :: fsListToJson rest

end

mutual

/-- JSON.stringify view of a decoded document value (dates serialize to their
source timestamp string, `NaN` to `null`). -/
def docToJson : DocValue → Json
  | .str s => .str s
  | .int n => .num n
  | .nan => .null
  | .double d => .num d
  | .bool b => .bool b
  | .date t => .str t
  | .map fs => .obj (docFieldsToJson fs)
  | .list xs => .arr (docListToJson xs)
  | .raw v => fsToJson v

/-- JSON.stringify view of a decoded field map. -/
def docFieldsToJson : List (String × DocValue) → List (String × Json)
  | [] => []
  | (k, v) :: rest => (k, docToJson v) :: docFieldsToJson rest

/-- JSON.stringify view of a decoded value list. -/
def docListToJson : List DocValue → List Json
  | [] => []
  | v :: rest => docToJson v :: docListToJson rest

end

/-- JavaScript truthiness of a possibly-absent document field. -/
def docTruthy : Option DocValue → Bool
  | none => false
  | some (.str s) => s != ""
  | some (.int n) => n != 0
  | some .nan => false
  | some (.double d) => d != 0
  | some (.bool b) => b
  | some (.date _) => true
  | some (.map _) => true
  | some (.list _) => true
  | some (.raw _) => true

/-- Template-interpolation string of a document value (arrays approximated by
`""`; identifiers are plain strings in every modelled event). -/
def docToString : DocValue → String
  | .str s => s
  | .int n => toString n
  | .nan => "NaN"
  | .double d => toString d
  | .bool b => cond b "true" "false"
  | .date t => t
  | .map _ => "[object Object]"
  | .list _ => ""
  | .raw _ => "[object Object]"

/-- One snapshot (`value` or `oldValue`) of the event envelope. -/
structure Snapshot where
  name : Option String
  fields : Option (List (String × FSValue))

/-- Structured event payload (`cloudEvent.data` after any buffer decoding):
optional top-level identifier fields plus the two snapshots. -/
structure EventData where
  parentId : Option String
  childId : Option String
  value : Option Snapshot
  oldValue : Option Snapshot

/-- The CloudEvent envelope fields the pipeline reads.  `data = none` models
an envelope with no (or non-object) payload. -/
structure CloudEvent where
  id : Option String
  type : Option String
  subject : Option String
  data : Option EventData

/-- JavaScript truthiness of a possibly-absent string. -/
def strTruthy : Option String → Bool
  | none => false
  | some s => s != ""

/-- Step at index.js lines 96-112: an object payload exposing truthy direct
`parentId` and `childId` fields is rewritten into the wrapped
`{value: {fields: ...}}` shape. -/
def normalizeEventData : Option EventData → Option EventData
  | none => none
  | some ed =>
    if strTruthy ed.parentId && strTruthy ed.childId then
      some { parentId := none, childId := none,
             value := some { name := none,
                             fields := some [("parentId", FSValue.stringValue (ed.parentId.getD "")),
                                             ("childId", FSValue.stringValue (ed.childId.getD ""))] },
             oldValue := none }
    else some ed

/-- Change kind derived by the pipeline (index.js lines 165-176); `unknown`
is the initial value kept when `value.fields` is missing. -/
inductive EventType where
  | created
  | deleted
  | updated
  | unknown
deriving DecidableEq, Repr

/-- Truthiness of `snap && snap.name` on an optional snapshot. -/
def hasName : Option Snapshot → Bool
  | none => false
  | some s => strTruthy s.name

/-- Document extraction and change-kind derivation (index.js lines 125-185):
with `value.fields` present the fields are converted and the kind derived
from the snapshot names; otherwise the document is empty and the kind stays
`unknown`. -/
def extractDoc (d : Option EventData) : List (String × DocValue) × EventType :=
  match d with
  | some ed =>
    match ed.value with
    | some v =>
      match v.fields with
      | some fs =>
        (convertFields fs,
         if !hasName ed.oldValue then EventType.created
         else if !hasName ed.value then EventType.deleted
         else EventType.updated)
      | none => ([], EventType.unknown)
    | none => ([], EventType.unknown)
  | none => ([], EventType.unknown)

/-- Check that the pattern occurs at the head of the character list. -/
def matchesAt : List Char → List Char → Bool
  | _, [] => true
  | [], _ :: _ => false
  | a :: s, b :: p => a == b && matchesAt s p

/-- Check that the pattern occurs anywhere in the character list. -/
def hasSub : List Char → List Char → Bool
  | [], p => p.isEmpty
  | a :: t, p => matchesAt (a :: t) p || hasSub t p

/-- JavaScript `s.includes(pat)`. -/
def strContains (s pat : String) : Bool := hasSub s.data pat.data

/-- The JavaScript `Error` shape the classifier inspects: message, optional
HTTP response status, optional transport error code. -/
structure JsError where
  message : String
  responseStatus : Option Int := none
  code : Option String := none
deriving DecidableEq, Repr

/-- Oracle for the external collaborators: each field gives the outcome of
one outbound call (`none`/`Except.error` models the call throwing).  `now` is
`Date.now()` in milliseconds and `nowIso` the ISO timestamp string. -/
structure Ext where
  authToken : String → Option String
  summary : String → String → Option Json
  currentLogs : String → Option Json
  profile : String → Except JsError Json
  now : Int
  nowIso : String

/-- `getAuthToken` (index.js lines 285-310) as seen through the caller's
`catch`: `none` covers both a failed request and a response whose `token`
field is missing or empty (the function throws, the caller catches). -/
def getAuthToken (ext : Ext) (parentId : String) : Option String :=
  match ext.authToken parentId with
  | some t => if t != "" then some t else none
  | none => none

/-- `getLast7daySummary` (index.js lines 313-340): any failure degrades to an
empty list. -/
def getLast7daySummary (ext : Ext) (parentId childId : String) : Json :=
  match ext.summary parentId childId with
  | some d => d
  | none => Json.arr []

/-- The fixed-shape default `getCurrentDayLogs` returns on failure. -/
def logsDefault : Json :=
  Json.obj [("sleep", Json.arr []), ("feed", Json.arr []),
            ("diaper", Json.arr []), ("pumping", Json.arr [])]

/-- `getCurrentDayLogs` (index.js lines 343-373): any failure degrades to the
fixed-shape empty-log object. -/
def getCurrentDayLogs (ext : Ext) (childId : String) : Json :=
  match ext.currentLogs childId with
  | some d => d
  | none => logsDefault

/-- Comma join used by the profile validator's error message. -/
def joinComma : List String → String
  | [] => ""
  | [x] => x
  | x :: xs => x ++ ", " ++ joinComma xs

/-- `getChildProfile` (index.js lines 376-407): propagates the request error,
and turns a response missing any of `name`, `dateOfBirth`, `gender` into an
error of its own. -/
def getChildProfile (ext : Ext) (childId : String) : Except JsError Json :=
  match ext.profile childId with
  | Except.error e => Except.error e
  | Except.ok d =>
    let missing := ["name", "dateOfBirth", "gender"].filter (fun f => (jsGet d f).isNone)
    if missing.isEmpty then Except.ok d
    else Except.error { message := "API response missing required fields: " ++ joinComma missing }

/-- One Redis `setEx` call: key, TTL in seconds, stored (JSON) value. -/
structure CacheWrite where
  key : String
  ttl : Int
  value : Json

/-- `updateRedisCache` (index.js lines 410-457): summary and day-log keys are
written only when both `last7daySummary` and `currentDayLogs` are truthy on
the data object, wrapped with an `expiresAt` stamp; the combined
(`parent:...:child:...`) or limited key stores the data object verbatim. -/
def updateRedisCache (parentId : Option String) (childId : String) (data : Json) (now : Int) :
    List CacheWrite :=
  (if jsTruthyOpt (jsGet data "last7daySummary") && jsTruthyOpt (jsGet data "currentDayLogs") then
    [{ key := "summary:" ++ childId, ttl := 86400,
       value := Json.obj [("data", (jsGet data "last7daySummary").getD Json.null),
                          ("expiresAt", Json.num (now + 86400000))] },
     { key := "daylog:" ++ childId, ttl := 1800,
       value := Json.obj [("data", (jsGet data "currentDayLogs").getD Json.null),
                          ("expiresAt", Json.num (now + 1800000))] }]
   else []) ++
  (if strTruthy parentId then
    [{ key := "parent:" ++ parentId.getD "" ++ ":child:" ++ childId, ttl := 3600, value := data }]
   else
    [{ key := "limited:child:" ++ childId ++ ":" ++ jsDisplay (jsGet data "eventSource"),
       ttl := 3600, value := data }])

/-- `updateProfileRedisCache` (index.js lines 460-481): the profile key wraps
`data.profile` with an `expiresAt` stamp; the parent-child profile key stores
the data object verbatim. -/
def updateProfileRedisCache (parentId childId : String) (data : Json) (now : Int) :
    List CacheWrite :=
  [{ key := "profile:" ++ childId, ttl := 86400,
     value := Json.obj [("data", (jsGet data "profile").getD Json.null),
                        ("expiresAt", Json.num (now + 86400000))] },
   { key := "profile:parent:" ++ parentId ++ ":child:" ++ childId, ttl := 86400, value := data }]

/-- Effects of one pipeline invocation: which parent ids had a credential
lookup issued, how many summary / current-log / profile fetches ran, and the
cache writes performed, in order. -/
structure Trace where
  authCalls : List String := []
  summaryCalls : Nat := 0
  logCalls : Nat := 0
  profileCalls : Nat := 0
  writes : List CacheWrite := []

/-- Field access on the decoded document object. -/
def lookupField (doc : List (String × DocValue)) (k : String) : Option DocValue :=
  (doc.find? (fun p => p.1 == k)).map (fun p => p.2)

/-- Credential step (index.js lines 216-228): a lookup is issued only when
`parentId` is truthy; its failure is caught, leaving the token `none`.
Returns the token and the list of lookups issued. -/
def lookupToken (doc : List (String × DocValue)) (ext : Ext) : Option String × List String :=
  if docTruthy (lookupField doc "parentId") then
    let p := docToString ((lookupField doc "parentId").getD (DocValue.str ""))
    (getAuthToken ext p, [p])
  else (none, [])

/-- Last path segment of the event subject, `"unknown"` for a falsy subject
(the `subject.split('/').slice(-1)[0]` expression). -/
def splitSlash : List Char → List (List Char)
  | [] => [[]]
  | c :: cs =>
    let r := splitSlash cs
    if c = '/' then [] :: r
    else
      match r with
      | h :: t => (c :: h) :: t
      | [] => [[c]]

/-- Document path shown in the missing-childId error message. -/
def docPath (subject : Option String) : String :=
  match subject with
  | some s => if s != "" then String.mk ((splitSlash s.data).getLast?.getD []) else "unknown"
  | none => "unknown"

/-- The error thrown at index.js line 206 for a missing `childId`. -/
def missingChildIdErr (subject : Option String) : JsError :=
  { message := "Missing required field childId. Document: " ++ docPath subject }

/-- The error thrown at index.js line 235 when a profile collection has no
parent id or no credential. -/
def profileAuthErr : JsError :=
  { message := "Profile collections require parentId for authentication" }

/-- The combined activity data object cached by the authenticated path. -/
def activityData (summary currentLogs : Json) (nowIso coll : String) : Json :=
  Json.obj [("last7daySummary", summary), ("currentDayLogs", currentLogs),
            ("lastUpdated", Json.str nowIso), ("eventSource", Json.str coll)]

/-- The limited data object cached when no credential is available. -/
def limitedData (doc : List (String × DocValue)) (nowIso coll : String) : Json :=
  Json.obj [("eventData", Json.obj (docFieldsToJson doc)), ("lastUpdated", Json.str nowIso),
            ("eventSource", Json.str coll), ("processingMode", Json.str "limited_no_auth")]

/-- The profile data object cached by the profile path. -/
def profileData (profile : Json) (nowIso coll : String) : Json :=
  Json.obj [("profile", profile), ("lastUpdated", Json.str nowIso),
            ("eventSource", Json.str coll)]

/-- `processFirestoreEvent` (index.js lines 60-282): decode, derive the
change kind, short-circuit deletes, validate `childId`, fetch the credential
when `parentId` is truthy, then run the profile or activity path.  The second
component is the error the invocation throws, if any. -/
def processFirestoreEvent (cloudEvent : CloudEvent) (collectionName : String) (ext : Ext) :
    Trace × Option JsError :=
  let pr := extractDoc (normalizeEventData cloudEvent.data)
  let documentData := pr.1
  let eventType := pr.2
  if eventType = EventType.deleted then ({}, none)
  else if !docTruthy (lookupField documentData "childId") then
    ({}, some (missingChildIdErr cloudEvent.subject))
  else
    let childId := docToString ((lookupField documentData "childId").getD (DocValue.str ""))
    let tk := lookupToken documentData ext
    let token := tk.1
    let auths := tk.2
    if collectionName = "child_profile" ∨ collectionName = "child_questionnaire" then
      if !docTruthy (lookupField documentData "parentId") || token.isNone then
        ({ authCalls := auths }, some profileAuthErr)
      else
        match getChildProfile ext childId with
        | Except.error e => ({ authCalls := auths, profileCalls := 1 }, some e)
        | Except.ok prof =>
          let parentId := docToString ((lookupField documentData "parentId").getD (DocValue.str ""))
          ({ authCalls := auths, profileCalls := 1,
             writes := updateProfileRedisCache parentId childId
                         (profileData prof ext.nowIso collectionName) ext.now }, none)
    else
      if docTruthy (lookupField documentData "parentId") && token.isSome then
        let parentId := docToString ((lookupField documentData "parentId").getD (DocValue.str ""))
        let summary := getLast7daySummary ext parentId childId
        let logs := getCurrentDayLogs ext childId
        ({ authCalls := auths, summaryCalls := 1, logCalls := 1,
           writes := updateRedisCache (some parentId) childId
                       (activityData summary logs ext.nowIso collectionName) ext.now }, none)
      else
        ({ authCalls := auths,
           writes := updateRedisCache none childId
                       (limitedData documentData ext.nowIso collectionName) ext.now }, none)

/-- Reasons attached to the branches of `shouldRetry` (index.js lines
523-576), one per logged branch. -/
inductive Reason where
  | validation
  | testData
  | notFound
  | unauthenticated
  | badRequest
  | network
  | serverError
  | unknown
deriving DecidableEq, Repr

/-- Outcome of the error classifier: retry or not, and which rule fired. -/
structure Classification where
  retryable : Bool
  reason : Reason
deriving DecidableEq, Repr

/-- The subject clause of the test-data rule:
`cloudEvent.subject && cloudEvent.subject.includes('test')`. -/
def subjectHasTestMarker (subject : Option String) : Bool :=
  match subject with
  | some s => s != "" && strContains s "test"
  | none => false

/-- Transport-code clause of the network rule. -/
def isTransientCode (code : Option String) : Bool :=
  code == some "ECONNREFUSED" || code == some "ETIMEDOUT" ||
  code == some "ENOTFOUND" || code == some "ECONNRESET"

/-- Status-at-least-500 clause of the server-error rule. -/
def isServerStatus (status : Option Int) : Bool :=
  match status with
  | some s => decide (500 ≤ s)
  | none => false

/-- The classifier (index.js `shouldRetry`, lines 523-576), with the reason
each branch logs.  Branches are evaluated in source order, first match
wins. -/
def classify (error : JsError) (subject : Option String) : Classification :=
  if strContains error.message "Missing required field" then ⟨false, Reason.validation⟩
  else if strContains error.message "12345" || strContains error.message "test" ||
          subjectHasTestMarker subject then ⟨false, Reason.testData⟩
  else if error.responseStatus == some 404 then ⟨false, Reason.notFound⟩
  else if error.responseStatus == some 401 then ⟨false, Reason.unauthenticated⟩
  else if error.responseStatus == some 400 then ⟨false, Reason.badRequest⟩
  else if isTransientCode error.code then ⟨true, Reason.network⟩
  else if isServerStatus error.responseStatus then ⟨true, Reason.serverError⟩
  else ⟨false, Reason.unknown⟩

/-- `shouldRetry` proper returns only the boolean. -/
def shouldRetry (error : JsError) (cloudEvent : CloudEvent) : Bool :=
  (classify error cloudEvent.subject).retryable

/-- The audit document `logFailedEvent` (index.js lines 579-615) appends to
the `processing_failures` collection, restricted to the scalar fields. -/
structure FailureRecord where
  eventId : Option String
  eventType : Option String
  subject : Option String
  collection : String
  errorMessage : String
  acknowledged : Bool
  reason : String
deriving DecidableEq, Repr

/-- Construction of the audit record from the event and error. -/
def mkFailureRecord (cloudEvent : CloudEvent) (collectionName : String) (error : JsError) :
    FailureRecord :=
  { eventId := cloudEvent.id, eventType := cloudEvent.type, subject := cloudEvent.subject,
    collection := collectionName, errorMessage := error.message, acknowledged := true,
    reason := "non_recoverable_error" }

/-- Outcome of the retry wrapper: the trace, the audit record written for an
absorbed terminal failure, and the error rethrown for a retryable one. -/
structure RetryOutcome where
  trace : Trace
  audit : Option FailureRecord
  rethrown : Option JsError

/-- `processFirestoreEventWithRetryLogic` (index.js lines 486-520): a
retryable error is rethrown to trigger redelivery; a non-recoverable one is
logged to the audit store and the event acknowledged (no error escapes). -/
def processFirestoreEventWithRetryLogic (cloudEvent : CloudEvent) (collectionName : String)
    (ext : Ext) : RetryOutcome :=
  match processFirestoreEvent cloudEvent collectionName ext with
  | (t, none) => { trace := t, audit := none, rethrown := none }
  | (t, some e) =>
    if shouldRetry e cloudEvent then { trace := t, audit := none, rethrown := some e }
    else { trace := t, audit := some (mkFailureRecord cloudEvent collectionName e),
           rethrown := none }

/-- Degradation-compatible outcome of an enrichment call: the call either
fails (and the pipeline substitutes its default) or returns a truthy
payload. -/
def degradedOk : Option Json → Bool
  | none => true
  | some v => jsTruthy v

/-- Flat shape on which the source decoder loses nothing: scalars, maps whose
members are all strings, arrays whose elements are all strings or integers. -/
def flatValue : FSValue → Bool
  | .stringValue _ => true
  | .integerValue _ => true
  | .doubleValue _ => true
  | .booleanValue _ => true
  | .timestampValue _ => true
  | .mapValue (some fs) =>
    fs.all (fun p => match p.2 with | FSValue.stringValue _ => true | _ => false)
  | .mapValue none => false
  | .arrayValue (some vs) =>
    vs.all (fun v =>
      match v with
      | FSValue.stringValue _ => true
      | FSValue.integerValue _ => true
      | _ => false)
  | .arrayValue none => false

/-- External-call oracle where every outbound call fails. -/
def extTrivial : Ext :=
  { authToken := fun _ => none, summary := fun _ _ => none, currentLogs := fun _ => none,
    profile := fun _ => Except.error { message := "profile fetch failed" },
    now := 0, nowIso := "1970-01-01T00:00:00.000Z" }

/-- External-call oracle where every outbound call succeeds. -/
def okExt : Ext :=
  { authToken := fun _ => some "tok",
    summary := fun _ _ => some (Json.str "SUM"),
    currentLogs := fun _ => some (Json.str "LOGS"),
    profile := fun _ => Except.ok (Json.obj [("name", Json.str "n"),
                                             ("dateOfBirth", Json.str "d"),
                                             ("gender", Json.str "g")]),
    now := 1000, nowIso := "ISO" }

/-- Oracle whose summary call succeeds with a `null` payload. -/
def nullSummaryExt : Ext :=
  { authToken := fun _ => some "tok", summary := fun _ _ => some Json.null,
    currentLogs := fun _ => some (Json.obj [("sleep", Json.arr [])]),
    profile := fun _ => Except.error { message := "x" }, now := 0, nowIso := "ISO" }

/-- Oracle whose credential lookup fails but whose enrichment calls work. -/
def noAuthExt : Ext :=
  { authToken := fun _ => none, summary := fun _ _ => some (Json.str "SUM"),
    currentLogs := fun _ => some (Json.str "LOGS"),
    profile := fun _ => Except.error { message := "x" }, now := 7, nowIso := "ISO7" }

/-- Oracle whose summary call fails while the current-log call succeeds. -/
def summaryFailExt : Ext :=
  { authToken := fun _ => some "tok", summary := fun _ _ => none,
    currentLogs := fun _ => some (Json.str "LOGS"),
    profile := fun _ => Except.error { message := "x" }, now := 3, nowIso := "ISO3" }

/-- A create event for `{parentId:"p1", childId:"c1"}` (scenario A shape). -/
def scenarioAEvent : CloudEvent :=
  { id := some "evt-a", type := some "google.cloud.firestore.document.v1.written",
    subject := some "documents/feedEvents/doca",
    data := some { parentId := none, childId := none,
                   value := some { name := some "projects/p/documents/feedEvents/doca",
                                   fields := some [("parentId", FSValue.stringValue "p1"),
                                                   ("childId", FSValue.stringValue "c1")] },
                   oldValue := none } }

/-- A create event for `{childId:"c1"}` with no parent id (scenario B shape). -/
def scenarioBEvent : CloudEvent :=
  { id := some "evt-b", type := some "google.cloud.firestore.document.v1.written",
    subject := some "documents/feedEvents/docb",
    data := some { parentId := none, childId := none,
                   value := some { name := some "projects/p/documents/feedEvents/docb",
                                   fields := some [("childId", FSValue.stringValue "c1")] },
                   oldValue := none } }

/-- A delete event (old snapshot named, new snapshot unnamed) whose remaining
fields contain no `childId`. -/
def deletedNoChildEvent : CloudEvent :=
  { id := some "evt-del", type := some "google.cloud.firestore.document.v1.written",
    subject := some "documents/feedEvents/doc9",
    data := some { parentId := none, childId := none,
                   value := some { name := none, fields := some [] },
                   oldValue := some { name := some "projects/p/documents/feedEvents/doc9",
                                      fields := none } } }

/-- A create event whose document has no `childId`. -/
def noChildEvent : CloudEvent :=
  { id := some "evt-nochild", type := some "google.cloud.firestore.document.v1.written",
    subject := some "documents/feedEvents/doc4",
    data := some { parentId := none, childId := none,
                   value := some { name := some "projects/p/documents/feedEvents/doc4",
                                   fields := some [] },
                   oldValue := none } }

/-- A concrete combined-activity data object. -/
def c6data : Json := activityData (Json.arr []) logsDefault "ISO" "feedEvents"

/-- A concrete flat field map: scalars, a string/integer array, a
string-only nested map. -/
def flatDoc : List (String × FSValue) :=
  [("parentId", FSValue.stringValue "p1"),
   ("count", FSValue.integerValue "12"),
   ("tags", FSValue.arrayValue (some [FSValue.stringValue "a", FSValue.integerValue "2"])),
   ("meta", FSValue.mapValue (some [("k", FSValue.stringValue "v")]))]

theorem docTruthy_some_str (s : String) : docTruthy (some (DocValue.str s)) = (s != "") := rfl

theorem strTruthy_some (s : String) : strTruthy (some s) = (s != "") := rfl

theorem strTruthy_none : strTruthy none = false := rfl

theorem docToString_str (s : String) : docToString (DocValue.str s) = s := rfl

theorem jsDisplay_some_str (s : String) : jsDisplay (some (Json.str s)) = s := rfl

theorem strDataAppend (a b : String) : (a ++ b).data = a.data ++ b.data := by
  cases a; cases b; rfl

theorem matchesAt_extend (p : List Char) : ∀ s r : List Char,
    matchesAt s p = true → matchesAt (s ++ r) p = true := by
  induction p with
  | nil => intro s r _; cases s ++ r <;> rfl
  | cons b pt ih =>
    intro s r h
    cases s with
    | nil => simp [matchesAt] at h
    | cons a st =>
      simp only [matchesAt, Bool.and_eq_true] at h
      simpa [matchesAt, h.1] using ih st r h.2

theorem hasSub_nil_pat : ∀ s : List Char, hasSub s [] = true := by
  intro s; cases s <;> simp [hasSub, matchesAt]

theorem hasSub_extend : ∀ s p r : List Char, hasSub s p = true → hasSub (s ++ r) p = true := by
  intro s
  induction s with
  | nil =>
    intro p r h
    simp only [hasSub] at h
    simp [List.isEmpty_iff.1 h, hasSub_nil_pat]
  | cons a t ih =>
    intro p r h
    simp only [hasSub, Bool.or_eq_true] at h ⊢
    rcases h with h | h
    · exact Or.inl (matchesAt_extend p (a :: t) r h)
    · exact Or.inr (ih p r h)

theorem strContains_extend (a b pat : String) (h : strContains a pat = true) :
    strContains (a ++ b) pat = true := by
  unfold strContains at h ⊢
  rw [strDataAppend]
  exact hasSub_extend a.data pat.data b.data h

theorem missingChildIdErr_contains (subject : Option String) :
    strContains (missingChildIdErr subject).message "Missing required field" = true := by
  unfold missingChildIdErr
  exact strContains_extend "Missing required field childId. Document: " (docPath subject)
    "Missing required field" (by decide)

theorem classify_missingChildId (subject subject2 : Option String) :
    classify (missingChildIdErr subject) subject2 = ⟨false, Reason.validation⟩ := by
  unfold classify
  simp [missingChildIdErr_contains]

/-- C1 counterexample: an error with HTTP 404 whose event subject contains
the sentinel `"12345"` (but no `"test"`, and no marker in the message)
classifies as `not-found`, not `test-data` — the subject clause of rule 2
checks only the literal `"test"`. -/
theorem c1_counterexample :
    ({ message := "request failed", responseStatus := some 404 } : JsError).responseStatus
        = some 404 ∧
    strContains "documents/12345" "12345" = true ∧
    classify { message := "request failed", responseStatus := some 404 }
        (some "documents/12345") = ⟨false, Reason.notFound⟩ ∧
    Reason.notFound ≠ Reason.testData := by
  refine ⟨rfl, by decide, by decide, by decide⟩

/-- C1 (amended): whenever the message does not match the
missing-mandatory-field rule and the test-data rule's actual condition holds
(message contains `"12345"` or `"test"`, or the non-empty subject contains
`"test"`), the classifier returns terminal with reason test-data — in
particular it does so for any HTTP status, so a 404 with such a marker is
test-data, not not-found. -/
theorem c1_test_marker_precedence (e : JsError) (subject : Option String)
    (h1 : strContains e.message "Missing required field" = false)
    (h2 : (strContains e.message "12345" || strContains e.message "test" ||
           subjectHasTestMarker subject) = true) :
    classify e subject = ⟨false, Reason.testData⟩ := by
  unfold classify
  simp [h1, h2]

/-- C1 witness: a 404 error whose message contains `"test"` classifies as
test-data. -/
theorem c1_witness :
    classify { message := "fetch failed for test child", responseStatus := some 404 } none
      = ⟨false, Reason.testData⟩ :=
  c1_test_marker_precedence { message := "fetch failed for test child", responseStatus := some 404 }
    none (by decide) (by decide)

/-- C2 counterexample: a delete event whose decoded document lacks `childId`
is acknowledged successfully — no ValidationError is raised and no audit
record is written, because the delete short-circuit runs before validation. -/
theorem c2_counterexample :
    lookupField (extractDoc (normalizeEventData deletedNoChildEvent.data)).1 "childId" = none ∧
    processFirestoreEventWithRetryLogic deletedNoChildEvent "feedEvents" extTrivial =
      { trace := {}, audit := none, rethrown := none } :=
  ⟨rfl, rfl⟩

/-- C2 (amended): for every event that is not classified deleted and whose
decoded document lacks a truthy `childId`, regardless of `parentId`, the
pipeline fails with the missing-required-field error, the classifier marks it
terminal with reason validation, the audit record is written, no cache write
(indeed no effect at all) occurs, and the wrapper returns without rethrowing
(the event is acknowledged). -/
theorem c2_missing_childId_terminal (ev : CloudEvent) (coll : String) (ext : Ext)
    (hdel : (extractDoc (normalizeEventData ev.data)).2 ≠ EventType.deleted)
    (hchild : docTruthy (lookupField (extractDoc (normalizeEventData ev.data)).1 "childId")
        = false) :
    processFirestoreEvent ev coll ext = ({}, some (missingChildIdErr ev.subject)) ∧
    classify (missingChildIdErr ev.subject) ev.subject = ⟨false, Reason.validation⟩ ∧
    processFirestoreEventWithRetryLogic ev coll ext =
      { trace := {}, audit := some (mkFailureRecord ev coll (missingChildIdErr ev.subject)),
        rethrown := none } := by
  have h1 : processFirestoreEvent ev coll ext = ({}, some (missingChildIdErr ev.subject)) := by
    simp [processFirestoreEvent, hdel, hchild]
  have h2 := classify_missingChildId ev.subject ev.subject
  refine ⟨h1, h2, ?_⟩
  simp [processFirestoreEventWithRetryLogic, h1, shouldRetry, h2]

/-- C2 witness: a concrete create event with no `childId` is terminal,
audited and acknowledged. -/
theorem c2_witness :
    processFirestoreEvent noChildEvent "feedEvents" extTrivial =
      ({}, some (missingChildIdErr noChildEvent.subject)) ∧
    classify (missingChildIdErr noChildEvent.subject) noChildEvent.subject
      = ⟨false, Reason.validation⟩ ∧
    processFirestoreEventWithRetryLogic noChildEvent "feedEvents" extTrivial =
      { trace := {},
        audit := some (mkFailureRecord noChildEvent "feedEvents"
                        (missingChildIdErr noChildEvent.subject)),
        rethrown := none } :=
  c2_missing_childId_terminal noChildEvent "feedEvents" extTrivial (by decide) (by decide)

/-- C3: every event whose derived change kind is `deleted` produces no
credential lookup, no summary/log/profile fetch and no cache write, and the
invocation returns success. -/
theorem c3_deleted_no_effects (ev : CloudEvent) (coll : String) (ext : Ext)
    (h : (extractDoc (normalizeEventData ev.data)).2 = EventType.deleted) :
    processFirestoreEvent ev coll ext =
      ({ authCalls := [], summaryCalls := 0, logCalls := 0, profileCalls := 0,
         writes := [] }, none) := by
  simp [processFirestoreEvent, h]

/-- C3 witness: a concrete delete event has no effects and succeeds. -/
theorem c3_witness :
    processFirestoreEvent deletedNoChildEvent "feedEvents" extTrivial =
      ({ authCalls := [], summaryCalls := 0, logCalls := 0, profileCalls := 0,
         writes := [] }, none) :=
  c3_deleted_no_effects deletedNoChildEvent "feedEvents" extTrivial (by decide)

/-- C4 counterexample: with `{parentId:"p1", childId:"c1"}` and both
enrichment calls succeeding — the summary call returning the JSON payload
`null` — only `parent:p1:child:c1` is written; `summary:c1` and `daylog:c1`
are skipped by the truthiness guard, so the claimed key set is not written. -/
theorem c4_counterexample :
    nullSummaryExt.summary "p1" "c1" = some Json.null ∧
    nullSummaryExt.currentLogs "c1" = some (Json.obj [("sleep", Json.arr [])]) ∧
    (processFirestoreEvent scenarioAEvent "feedEvents" nullSummaryExt).2 = none ∧
    (processFirestoreEvent scenarioAEvent "feedEvents" nullSummaryExt).1.writes.map
        (fun w => w.key) = ["parent:p1:child:c1"] ∧
    ¬ "summary:c1" ∈ (processFirestoreEvent scenarioAEvent "feedEvents" nullSummaryExt).1.writes.map
        (fun w => w.key) := by
  refine ⟨rfl, rfl, rfl, rfl, by decide⟩

/-- C4 (amended): for every activity-mode event with parentId `"p1"` and
childId `"c1"` where the credential lookup succeeds and both enrichment calls
succeed with truthy (non-null, non-empty) payloads, the Cache Writer writes
exactly `summary:c1` (TTL 86400), `daylog:c1` (TTL 1800) and
`parent:p1:child:c1` (TTL 3600), containing the summary and current-log
results. -/
theorem c4_activity_full_writes (ev : CloudEvent) (coll : String) (ext : Ext)
    (doc : List (String × DocValue)) (et : EventType) (tok : String) (S L : Json)
    (hext : extractDoc (normalizeEventData ev.data) = (doc, et))
    (hdel : et ≠ EventType.deleted)
    (hpar : lookupField doc "parentId" = some (DocValue.str "p1"))
    (hchi : lookupField doc "childId" = some (DocValue.str "c1"))
    (hc1 : coll ≠ "child_profile") (hc2 : coll ≠ "child_questionnaire")
    (htok : ext.authToken "p1" = some tok) (htokne : tok ≠ "")
    (hS : ext.summary "p1" "c1" = some S) (hStr : jsTruthy S = true)
    (hL : ext.currentLogs "c1" = some L) (hLtr : jsTruthy L = true) :
    processFirestoreEvent ev coll ext =
      ({ authCalls := ["p1"], summaryCalls := 1, logCalls := 1, profileCalls := 0,
         writes := [
           { key := "summary:c1", ttl := 86400,
             value := Json.obj [("data", S), ("expiresAt", Json.num (ext.now + 86400000))] },
           { key := "daylog:c1", ttl := 1800,
             value := Json.obj [("data", L), ("expiresAt", Json.num (ext.now + 1800000))] },
           { key := "parent:p1:child:c1", ttl := 3600,
             value := activityData S L ext.nowIso coll }] }, none) := by
  simp [processFirestoreEvent, hext, hdel, hpar, hchi, hc1, hc2, lookupToken, getAuthToken,
        htok, htokne, getLast7daySummary, hS, getCurrentDayLogs, hL, updateRedisCache,
        activityData, jsGet, jsTruthyOpt, hStr, hLtr, docTruthy_some_str, docToString_str,
        strTruthy_some, strTruthy_none, jsDisplay_some_str, List.find?, bne_iff_ne]

/-- C4 witness: scenario A at a concrete oracle writes the three keys. -/
theorem c4_witness :
    processFirestoreEvent scenarioAEvent "feedEvents" okExt =
      ({ authCalls := ["p1"], summaryCalls := 1, logCalls := 1, profileCalls := 0,
         writes := [
           { key := "summary:c1", ttl := 86400,
             value := Json.obj [("data", Json.str "SUM"),
                                ("expiresAt", Json.num (okExt.now + 86400000))] },
           { key := "daylog:c1", ttl := 1800,
             value := Json.obj [("data", Json.str "LOGS"),
                                ("expiresAt", Json.num (okExt.now + 1800000))] },
           { key := "parent:p1:child:c1", ttl := 3600,
             value := activityData (Json.str "SUM") (Json.str "LOGS") okExt.nowIso
                        "feedEvents" }] }, none) :=
  c4_activity_full_writes scenarioAEvent "feedEvents" okExt
    [("parentId", DocValue.str "p1"), ("childId", DocValue.str "c1")] EventType.created
    "tok" (Json.str "SUM") (Json.str "LOGS") rfl (by decide) rfl rfl (by decide) (by decide)
    rfl (by decide) rfl (by decide) rfl (by decide)

/-- C5: for every activity-mode non-deleted event with childId `"c1"` and no
truthy parentId, no credential lookup is issued, the run succeeds, and the
single cache write is `limited:child:c1:<collection>` with TTL 3600, whose
value carries the raw decoded document fields under `eventData`. -/
theorem c5_limited_no_parent (ev : CloudEvent) (coll : String) (ext : Ext)
    (doc : List (String × DocValue)) (et : EventType)
    (hext : extractDoc (normalizeEventData ev.data) = (doc, et))
    (hdel : et ≠ EventType.deleted)
    (hchi : lookupField doc "childId" = some (DocValue.str "c1"))
    (hpar : docTruthy (lookupField doc "parentId") = false)
    (hc1 : coll ≠ "child_profile") (hc2 : coll ≠ "child_questionnaire") :
    processFirestoreEvent ev coll ext =
      ({ authCalls := [], summaryCalls := 0, logCalls := 0, profileCalls := 0,
         writes := [{ key := "limited:child:c1:" ++ coll, ttl := 3600,
                      value := limitedData doc ext.nowIso coll }] }, none) := by
  simp [processFirestoreEvent, hext, hdel, hchi, hpar, hc1, hc2, lookupToken,
        updateRedisCache, limitedData, jsGet, jsTruthyOpt, docTruthy_some_str,
        docToString_str, strTruthy_some, strTruthy_none, jsDisplay_some_str,
        List.find?, bne_iff_ne]

/-- C5 witness: scenario B at a concrete oracle writes only the limited key. -/
theorem c5_witness :
    processFirestoreEvent scenarioBEvent "feedEvents" okExt =
      ({ authCalls := [], summaryCalls := 0, logCalls := 0, profileCalls := 0,
         writes := [{ key := "limited:child:c1:" ++ "feedEvents", ttl := 3600,
                      value := limitedData [("childId", DocValue.str "c1")] okExt.nowIso
                                 "feedEvents" }] }, none) :=
  c5_limited_no_parent scenarioBEvent "feedEvents" okExt
    [("childId", DocValue.str "c1")] EventType.created rfl (by decide) rfl (by decide)
    (by decide) (by decide)

/-- C8: for every non-deleted event on `child_profile` or
`child_questionnaire` with a truthy childId, if the credential step produced
no token (parentId absent, or the lookup failed), the pipeline fails with the
profile-requires-parentId error before any profile fetch or cache write. -/
theorem c8_profile_requires_parent (ev : CloudEvent) (coll : String) (ext : Ext)
    (doc : List (String × DocValue)) (et : EventType)
    (hext : extractDoc (normalizeEventData ev.data) = (doc, et))
    (hdel : et ≠ EventType.deleted)
    (hchi : docTruthy (lookupField doc "childId") = true)
    (hcoll : coll = "child_profile" ∨ coll = "child_questionnaire")
    (htok : (lookupToken doc ext).1 = none) :
    processFirestoreEvent ev coll ext =
      ({ authCalls := (lookupToken doc ext).2, summaryCalls := 0, logCalls := 0,
         profileCalls := 0, writes := [] }, some profileAuthErr) := by
  rcases hcoll with hcoll | hcoll <;>
    subst hcoll <;>
    simp [processFirestoreEvent, hext, hdel, hchi, htok]

/-- C8 witness: a `child_profile` event with no parentId fails with the
profile auth error, fetching and writing nothing. -/
theorem c8_witness :
    processFirestoreEvent scenarioBEvent "child_profile" okExt =
      ({ authCalls := (lookupToken [("childId", DocValue.str "c1")] okExt).2,
         summaryCalls := 0, logCalls := 0, profileCalls := 0, writes := [] },
       some profileAuthErr) :=
  c8_profile_requires_parent scenarioBEvent "child_profile" okExt
    [("childId", DocValue.str "c1")] EventType.created rfl (by decide) (by decide)
    (Or.inl rfl) rfl

/-- C10: for every activity-mode non-deleted event where both parentId and
childId are present (truthy) but the credential lookup fails, the failure is
absorbed: the lookup was issued, the run succeeds, and the only key written
is `limited:child:<childId>:<collection>` with TTL 3600 — none of
`summary:`, `daylog:` or `parent:...:child:...` — even though parentId is
known. -/
theorem c10_auth_failure_limited (ev : CloudEvent) (coll : String) (ext : Ext)
    (doc : List (String × DocValue)) (et : EventType) (p c : String)
    (hext : extractDoc (normalizeEventData ev.data) = (doc, et))
    (hdel : et ≠ EventType.deleted)
    (hpar : lookupField doc "parentId" = some (DocValue.str p)) (hp : p ≠ "")
    (hchi : lookupField doc "childId" = some (DocValue.str c)) (hc : c ≠ "")
    (hc1 : coll ≠ "child_profile") (hc2 : coll ≠ "child_questionnaire")
    (htok : ext.authToken p = none) :
    processFirestoreEvent ev coll ext =
      ({ authCalls := [p], summaryCalls := 0, logCalls := 0, profileCalls := 0,
         writes := [{ key := "limited:child:" ++ c ++ ":" ++ coll, ttl := 3600,
                      value := limitedData doc ext.nowIso coll }] }, none) := by
  simp [processFirestoreEvent, hext, hdel, hpar, hchi, hp, hc, hc1, hc2, lookupToken,
        getAuthToken, htok, updateRedisCache, limitedData, jsGet, jsTruthyOpt,
        docTruthy_some_str, docToString_str, strTruthy_some, strTruthy_none,
        jsDisplay_some_str, List.find?, bne_iff_ne]

/-- C10 witness: scenario A's event with a failing credential lookup writes
only the limited key. -/
theorem c10_witness :
    processFirestoreEvent scenarioAEvent "feedEvents" noAuthExt =
      ({ authCalls := ["p1"], summaryCalls := 0, logCalls := 0, profileCalls := 0,
         writes := [{ key := "limited:child:" ++ "c1" ++ ":" ++ "feedEvents", ttl := 3600,
                      value := limitedData [("parentId", DocValue.str "p1"),
                                            ("childId", DocValue.str "c1")]
                                 noAuthExt.nowIso "feedEvents" }] }, none) :=
  c10_auth_failure_limited scenarioAEvent "feedEvents" noAuthExt
    [("parentId", DocValue.str "p1"), ("childId", DocValue.str "c1")] EventType.created
    "p1" "c1" rfl (by decide) rfl (by decide) rfl (by decide) (by decide) (by decide) rfl

theorem jsTruthy_summary (ext : Ext) (p c : String) (h : degradedOk (ext.summary p c) = true) :
    jsTruthy (getLast7daySummary ext p c) = true := by
  cases hc : ext.summary p c with
  | none => simp [getLast7daySummary, hc, jsTruthy]
  | some v =>
    rw [hc] at h
    simpa [getLast7daySummary, hc] using h

theorem jsTruthy_logs (ext : Ext) (c : String) (h : degradedOk (ext.currentLogs c) = true) :
    jsTruthy (getCurrentDayLogs ext c) = true := by
  cases hc : ext.currentLogs c with
  | none => simp [getCurrentDayLogs, hc, logsDefault, jsTruthy]
  | some v =>
    rw [hc] at h
    simpa [getCurrentDayLogs, hc] using h

/-- C7: in activity mode with a credential, whenever each of the two
enrichment calls either fails or returns a truthy payload, the overall run
still succeeds, a failed summary fetch contributes the empty list, a failed
current-log fetch contributes the fixed-shape empty-log object, and the
(possibly degraded) results are cached under the usual three keys. -/
theorem c7_independent_degradation (ev : CloudEvent) (coll : String) (ext : Ext)
    (doc : List (String × DocValue)) (et : EventType) (p c tok : String)
    (hext : extractDoc (normalizeEventData ev.data) = (doc, et))
    (hdel : et ≠ EventType.deleted)
    (hpar : lookupField doc "parentId" = some (DocValue.str p)) (hp : p ≠ "")
    (hchi : lookupField doc "childId" = some (DocValue.str c)) (hc : c ≠ "")
    (hc1 : coll ≠ "child_profile") (hc2 : coll ≠ "child_questionnaire")
    (htok : ext.authToken p = some tok) (htokne : tok ≠ "")
    (hS : degradedOk (ext.summary p c) = true)
    (hL : degradedOk (ext.currentLogs c) = true) :
    (ext.summary p c = none → getLast7daySummary ext p c = Json.arr []) ∧
    (ext.currentLogs c = none → getCurrentDayLogs ext c = logsDefault) ∧
    processFirestoreEvent ev coll ext =
      ({ authCalls := [p], summaryCalls := 1, logCalls := 1, profileCalls := 0,
         writes := [
           { key := "summary:" ++ c, ttl := 86400,
             value := Json.obj [("data", getLast7daySummary ext p c),
                                ("expiresAt", Json.num (ext.now + 86400000))] },
           { key := "daylog:" ++ c, ttl := 1800,
             value := Json.obj [("data", getCurrentDayLogs ext c),
                                ("expiresAt", Json.num (ext.now + 1800000))] },
           { key := "parent:" ++ p ++ ":child:" ++ c, ttl := 3600,
             value := activityData (getLast7daySummary ext p c) (getCurrentDayLogs ext c)
                        ext.nowIso coll }] }, none) := by
  have hS' := jsTruthy_summary ext p c hS
  have hL' := jsTruthy_logs ext c hL
  refine ⟨fun h => by simp [getLast7daySummary, h], fun h => by simp [getCurrentDayLogs, h], ?_⟩
  simp [processFirestoreEvent, hext, hdel, hpar, hchi, hp, hc, hc1, hc2, lookupToken,
        getAuthToken, htok, htokne, updateRedisCache, activityData, jsGet, jsTruthyOpt,
        hS', hL', docTruthy_some_str, docToString_str, strTruthy_some, List.find?,
        bne_iff_ne]

/-- C7 witness: a failing summary call together with a succeeding
current-log call degrades only the summary and still caches all three
keys. -/
theorem c7_witness :
    (summaryFailExt.summary "p1" "c1" = none →
       getLast7daySummary summaryFailExt "p1" "c1" = Json.arr []) ∧
    (summaryFailExt.currentLogs "c1" = none →
       getCurrentDayLogs summaryFailExt "c1" = logsDefault) ∧
    processFirestoreEvent scenarioAEvent "feedEvents" summaryFailExt =
      ({ authCalls := ["p1"], summaryCalls := 1, logCalls := 1, profileCalls := 0,
         writes := [
           { key := "summary:" ++ "c1", ttl := 86400,
             value := Json.obj [("data", getLast7daySummary summaryFailExt "p1" "c1"),
                                ("expiresAt", Json.num (summaryFailExt.now + 86400000))] },
           { key := "daylog:" ++ "c1", ttl := 1800,
             value := Json.obj [("data", getCurrentDayLogs summaryFailExt "c1"),
                                ("expiresAt", Json.num (summaryFailExt.now + 1800000))] },
           { key := "parent:" ++ "p1" ++ ":child:" ++ "c1", ttl := 3600,
             value := activityData (getLast7daySummary summaryFailExt "p1" "c1")
                        (getCurrentDayLogs summaryFailExt "c1") summaryFailExt.nowIso
                        "feedEvents" }] }, none) :=
  c7_independent_degradation scenarioAEvent "feedEvents" summaryFailExt
    [("parentId", DocValue.str "p1"), ("childId", DocValue.str "c1")] EventType.created
    "p1" "c1" "tok" rfl (by decide) rfl (by decide) rfl (by decide) (by decide) (by decide)
    rfl (by decide) (by decide) (by decide)

/-- C6 counterexample: the combined-activity write stores the data object
verbatim; for a data object without the field, the stored value carries no
`expiresAt` at all, contradicting "every value ... plus an explicit
expiresAt". -/
theorem c6_counterexample :
    updateRedisCache (some "p1") "c1" (Json.obj [("eventSource", Json.str "feedEvents")]) 5 =
      [{ key := "parent:p1:child:c1", ttl := 3600,
         value := Json.obj [("eventSource", Json.str "feedEvents")] }] ∧
    jsGet (Json.obj [("eventSource", Json.str "feedEvents")]) "expiresAt" = none :=
  ⟨rfl, rfl⟩

/-- C6 (amended): every write of the activity writer is a summary write
(key `summary:<childId>`, TTL 86400, record wrapped with an `expiresAt`
stamp offset exactly `ttl * 1000` milliseconds from the write time), a
day-log write (key `daylog:<childId>`, TTL 1800, stamped likewise), or a
combined/limited write (the `parent:...:child:...` or `limited:child:...`
key, TTL 3600, storing the record verbatim — so no stamp is added); every
write of the profile writer is the profile write (key `profile:<childId>`,
TTL 86400, stamped) or the profile-with-parent write (its key, TTL 86400,
the record verbatim). -/
theorem c6_expiry_assignment (pid : Option String) (childId : String) (data : Json)
    (now : Int) (parentId2 childId2 : String) (data2 : Json) :
    (∀ w ∈ updateRedisCache pid childId data now,
       (w.key = "summary:" ++ childId ∧ w.ttl = 86400 ∧
          jsGet w.value "expiresAt" = some (Json.num (now + w.ttl * 1000))) ∨
       (w.key = "daylog:" ++ childId ∧ w.ttl = 1800 ∧
          jsGet w.value "expiresAt" = some (Json.num (now + w.ttl * 1000))) ∨
       ((w.key = "parent:" ++ pid.getD "" ++ ":child:" ++ childId ∨
         w.key = "limited:child:" ++ childId ++ ":" ++ jsDisplay (jsGet data "eventSource")) ∧
        w.ttl = 3600 ∧ w.value = data)) ∧
    (∀ w ∈ updateProfileRedisCache parentId2 childId2 data2 now,
       (w.key = "profile:" ++ childId2 ∧ w.ttl = 86400 ∧
          jsGet w.value "expiresAt" = some (Json.num (now + w.ttl * 1000))) ∨
       (w.key = "profile:parent:" ++ parentId2 ++ ":child:" ++ childId2 ∧
        w.ttl = 86400 ∧ w.value = data2)) := by
  constructor
  · intro w hw
    unfold updateRedisCache at hw
    rw [List.mem_append] at hw
    rcases hw with hw | hw
    · split at hw
      · simp only [List.mem_cons, List.not_mem_nil, or_false] at hw
        rcases hw with rfl | rfl
        · left
          refine ⟨rfl, rfl, ?_⟩
          simp [jsGet, List.find?]
        · right; left
          refine ⟨rfl, rfl, ?_⟩
          simp [jsGet, List.find?]
      · simp at hw
    · split at hw
      · simp only [List.mem_cons, List.not_mem_nil, or_false] at hw
        subst hw
        exact Or.inr (Or.inr ⟨Or.inl rfl, rfl, rfl⟩)
      · simp only [List.mem_cons, List.not_mem_nil, or_false] at hw
        subst hw
        exact Or.inr (Or.inr ⟨Or.inr rfl, rfl, rfl⟩)
  · intro w hw
    unfold updateProfileRedisCache at hw
    simp only [List.mem_cons, List.not_mem_nil, or_false] at hw
    rcases hw with rfl | rfl
    · left
      refine ⟨rfl, rfl, ?_⟩
      simp [jsGet, List.find?]
    · exact Or.inr ⟨rfl, rfl, rfl⟩

/-- C6 witness: the summary write of a concrete combined-activity record is
the stamped kind — its value carries `expiresAt` at exactly
`writeTime + ttl * 1000`; the other kinds are excluded by its key. -/
theorem c6_witness :
    jsGet (Json.obj [("data", Json.arr []),
                     ("expiresAt", Json.num ((0 : Int) + 86400000))]) "expiresAt"
        = some (Json.num ((0 : Int) + 86400 * 1000)) := by
  have h := (c6_expiry_assignment (some "p") "c" c6data 0 "p" "c" c6data).1
    { key := "summary:" ++ "c", ttl := 86400,
      value := Json.obj [("data", Json.arr []), ("expiresAt", Json.num ((0 : Int) + 86400000))] }
    (List.Mem.head _)
  rcases h with ⟨_, _, hstamp⟩ | ⟨hk, _, _⟩ | ⟨hk, _, _⟩
  · exact hstamp
  · exact absurd hk (by decide)
  · rcases hk with hk | hk <;> exact absurd hk (by decide)

/-- C9 counterexample: a nested map member carried as `integerValue` is
dropped by the decoder (the nested-map branch keeps only `stringValue`
members), while the recursive unwrapping the claim describes preserves it. -/
theorem c9_counterexample :
    convertFields [("a", FSValue.mapValue (some [("n", FSValue.integerValue "5")]))] =
      [("a", DocValue.map [])] ∧
    specUnwrapFields [("a", FSValue.mapValue (some [("n", FSValue.integerValue "5")]))] =
      [("a", DocValue.map [("n", DocValue.int 5)])] ∧
    DocValue.map ([] : List (String × DocValue)) ≠ DocValue.map [("n", DocValue.int 5)] := by
  refine ⟨rfl, rfl, ?_⟩
  simp

theorem convertNested_all_str (fs : List (String × FSValue))
    (h : fs.all (fun p =>
          match p.2 with
          | FSValue.stringValue _ => true
          | _ => false) = true) :
    fs.filterMap convertNestedEntry = specUnwrapFields fs := by
  induction fs with
  | nil => rfl
  | cons p rest ih =>
    obtain ⟨k, v⟩ := p
    rw [List.all_cons, Bool.and_eq_true] at h
    obtain ⟨h1, h2⟩ := h
    cases v <;>
      simp_all [convertNestedEntry, specUnwrapFields, specUnwrap, List.filterMap_cons]

theorem convertArray_all_flat (vs : List FSValue)
    (h : vs.all (fun v =>
          match v with
          | FSValue.stringValue _ => true
          | FSValue.integerValue _ => true
          | _ => false) = true) :
    vs.map convertArrayElem = specUnwrapList vs := by
  induction vs with
  | nil => rfl
  | cons v rest ih =>
    rw [List.all_cons, Bool.and_eq_true] at h
    obtain ⟨h1, h2⟩ := h
    cases v <;> simp_all [convertArrayElem, specUnwrapList, specUnwrap]

theorem convertValue_flat (v : FSValue) (h : flatValue v = true) :
    convertValue v = some (specUnwrap v) := by
  cases v with
  | stringValue s => rfl
  | integerValue s => rfl
  | doubleValue d => rfl
  | booleanValue b => rfl
  | timestampValue t => rfl
  | mapValue o =>
    cases o with
    | none => simp [flatValue] at h
    | some fs =>
      simp [convertValue, specUnwrap,
            convertNested_all_str fs (by simpa [flatValue] using h)]
  | arrayValue o =>
    cases o with
    | none => simp [flatValue] at h
    | some vs =>
      simp [convertValue, specUnwrap,
            convertArray_all_flat vs (by simpa [flatValue] using h)]

/-- C9 (amended): the decoder unwraps top-level typed scalars, keeps only
`stringValue` members of a nested map, and unwraps only string and integer
array elements (others pass through as raw wrappers), with no deeper
recursion; on documents whose nesting is limited to string-only maps and
string/integer arrays it agrees exactly with the fully recursive unwrap. -/
theorem c9_flat_agreement (fs : List (String × FSValue))
    (h : fs.all (fun p => flatValue p.2) = true) :
    convertFields fs = specUnwrapFields fs := by
  induction fs with
  | nil => rfl
  | cons p rest ih =>
    obtain ⟨k, v⟩ := p
    rw [List.all_cons, Bool.and_eq_true] at h
    obtain ⟨h1, h2⟩ := h
    have hrest := ih h2
    simp only [convertFields, List.filterMap_cons] at hrest ⊢
    simp [convertValue_flat v h1, specUnwrapFields, hrest]

/-- C9 witness: on a concrete flat document the decoder and the recursive
unwrap agree. -/
theorem c9_witness : convertFields flatDoc = specUnwrapFields flatDoc :=
  c9_flat_agreement flatDoc (by decide)

end FirestoreRedisCache
